import Mathlib

/-!
Shallow embedding of the VRPTur tour-planning scripts
(`research/tools/ortools_examples/vrptur.py` and
`research/tools/ortools_examples/vrptur_pois_data_extractor.py`).

Conventions of the embedding:

* Python floats are modelled as rationals; the geometric formulas only add,
  subtract, multiply and divide, so the structure of every computation is
  preserved exactly.
* The external libraries (the `haversine` package and `math.sin`, `math.sqrt`,
  `math.atan2`, `math.radians`) are not code of this repository; they are
  abstracted as the fields of a `GeoLib` parameter.  Theorems that need a
  mathematical fact about them (symmetry of the haversine metric, oddness of
  sine) take that fact as an explicit hypothesis.
* Python dictionaries are modelled as insertion-ordered association lists
  (`Dict`): assigning to an existing key rewrites it in place, assigning to a
  fresh key appends.
* `set_hotel` performs `dict(measurement)` — a shallow copy whose inner
  per-PoI dictionaries are shared with the base matrix — and then mutates
  those inner dictionaries.  To capture this aliasing the inner rows live in
  an explicit store (`List Row`) addressed by natural numbers, and the outer
  dictionaries map PoI identifiers to row addresses.
* The OR-Tools solver is an external collaborator; it is abstracted as a
  function returning `Option Assignment` (an objective value and one node
  sequence per vehicle/day, from `routing.Start` to the end sentinel).
-/

namespace VRPTur

/-- Python dictionary with `String` keys, as an insertion-ordered
association list. -/
abbrev Dict (α : Type) := List (String × α)

/-- Dictionary lookup (`d[k]`, as an `Option`). -/
def dget {α : Type} (k : String) : Dict α → Option α
  | [] => none
  | kv :: rest => if kv.1 = k then some kv.2 else dget k rest

/-- Key-membership test (`k in d`). -/
def dcontains {α : Type} (k : String) : Dict α → Bool
  | [] => false
  | kv :: rest => kv.1 = k || dcontains k rest

/-- Dictionary assignment `d[k] = v`: rewrites an existing binding in place,
otherwise appends the new binding (Python insertion order). -/
def dinsert {α : Type} (k : String) (v : α) (d : Dict α) : Dict α :=
  if dcontains k d then d.map (fun kv => if kv.1 = k then (k, v) else kv)
  else d ++ [(k, v)]

/-! ## Constants of `vrptur_pois_data_extractor.py` -/

def EARTH_RADIUS : ℚ := 6371

/-- `TRANSPORT_MODES` speed table (km/h).  Python raises `KeyError` on an
unknown mode; the embedding totalises with 0, and every call site below only
uses the six listed keys. -/
def TRANSPORT_MODES (mode : String) : ℚ :=
  if mode = "walk" then 6
  else if mode = "bicycle" then 25
  else if mode = "car" then 50
  else if mode = "carInHighway" then 85
  else if mode = "bus" then 50
  else if mode = "busInHighway" then 85
  else 0

def MAX_WALK_DISTANCE : ℚ := 2

def MAX_URBAN_DISTANCE : ℚ := 20

def MINUTES_PER_HOUR : ℚ := 60

def DEFAULT_VISITING_TIME : ℚ := 30

/-- `HOTEL_ID` from `vrptur.py`. -/
def HOTEL_ID : String := "hotel"

/-! ## The PoI record

A PoI is the JSON object used by the scripts: an identifier
(`poi["_id"]["$oid"]`), a label, a `[lng, lat]` coordinate pair, an optional
address (`poi["location"]["address"]`), an optional foursquare-venue address
(`poi["foursquareVenue"]["location"]["address"]`; `some a` means the venue
sub-record is present and resolves to address `a`), and an optional
`visitingTime` in minutes. -/
structure Poi where
  id : String
  label : String
  coordinates : ℚ × ℚ
  address : Option String
  venueAddress : Option String
  visitingTime : Option ℚ
deriving DecidableEq, Inhabited, Repr

/-- `oid(pi) = pi["_id"]["$oid"]`. -/
def oid (p : Poi) : String := p.id

/-- `is_equals(pi, pj)`: identity of the `$oid` strings only. -/
def is_equals (pi pj : Poi) : Bool := decide (oid pi = oid pj)

/-- `make_skinny_poi(_id, name, address, lat, lng)`. -/
def make_skinny_poi (i name addr : String) (lat lng : ℚ) : Poi :=
  { id := i, label := name, coordinates := (lng, lat),
    address := some addr, venueAddress := none, visitingTime := none }

/-- External mathematical functions used by the distance formulas:
the `haversine` library function (on `(lat, lng)` pairs) and
`math.sin` / `math.sqrt` / `math.atan2` / `math.radians`. -/
structure GeoLib where
  hav : ℚ × ℚ → ℚ × ℚ → ℚ
  sin : ℚ → ℚ
  sqrt : ℚ → ℚ
  atan2 : ℚ → ℚ → ℚ
  radians : ℚ → ℚ

/-! ## GeoMetric: `get_avenue`, `in_same_avenue`, distances, `duration` -/

/-- `get_avenue(p)`: the first comma-delimited segment of the venue address
if a venue sub-record is present, else of the plain address; `none` when the
resolved address is empty (the Python function returns `False` there). -/
def get_avenue (p : Poi) : Option String :=
  let address := match p.venueAddress with
    | some a => a
    | none => p.address.getD ""
  if address = "" then none
  else some ((address.splitOn ",").headD address)

/-- `in_same_avenue(pi, pj)`: both avenues resolvable and equal up to case. -/
def in_same_avenue (pi pj : Poi) : Bool :=
  match get_avenue pi, get_avenue pj with
  | some a, some b => decide (a.toLower = b.toLower)
  | _, _ => false

/-- `haversine_distance(pi_lng, pi_lat, pj_lng, pj_lat)`: repacks the
coordinates as `(lat, lng)` pairs and calls the external library. -/
def haversine_distance (G : GeoLib) (pi_lng pi_lat pj_lng pj_lat : ℚ) : ℚ :=
  G.hav (pi_lat, pi_lng) (pj_lat, pj_lng)

/-- `manhattan_distance`: sum of the two haversine arcs, one for the latitude
delta and one for the longitude delta. -/
def manhattan_distance (G : GeoLib) (pi_lng pi_lat pj_lng pj_lat : ℚ) : ℚ :=
  let r_pi_lat := G.radians pi_lat
  let r_pi_lng := G.radians pi_lng
  let r_pj_lat := G.radians pj_lat
  let r_pj_lng := G.radians pj_lng
  let dlat := r_pj_lat - r_pi_lat
  let a1 := G.sin (dlat / 2) ^ 2
  let c1 := 2 * G.atan2 (G.sqrt a1) (G.sqrt (1 - a1))
  let lat_d := c1 * EARTH_RADIUS
  let dlon := r_pj_lng - r_pi_lng
  let a2 := G.sin (dlon / 2) ^ 2
  let c2 := 2 * G.atan2 (G.sqrt a2) (G.sqrt (1 - a2))
  let lon_d := c2 * EARTH_RADIUS
  lat_d + lon_d

/-- `distance(pi, pj, smart, default_distance)`. -/
def distance (G : GeoLib) (pi pj : Poi) (smart : Bool)
    (default_distance : ℚ → ℚ → ℚ → ℚ → ℚ) : ℚ :=
  let pi_lng := pi.coordinates.1
  let pi_lat := pi.coordinates.2
  let pj_lng := pj.coordinates.1
  let pj_lat := pj.coordinates.2
  if smart then
    if in_same_avenue pi pj then haversine_distance G pi_lng pi_lat pj_lng pj_lat
    else manhattan_distance G pi_lng pi_lat pj_lng pj_lat
  else default_distance pi_lng pi_lat pj_lng pj_lat

/-- `distance(pi, pj)` with Python's default arguments
(`smart=False`, `default_distance=haversine_distance`), as invoked by
`duration` and `measure`. -/
def distance_default (G : GeoLib) (pi pj : Poi) : ℚ :=
  distance G pi pj false (haversine_distance G)

/-- The transport-mode selection of `duration` when `mode == "auto"`. -/
def auto_mode (dist auto_threshold max_urban_threshold : ℚ) : String :=
  if dist ≤ auto_threshold then
    if dist ≤ max_urban_threshold then "car" else "carInHighway"
  else "walk"

/-- `duration(pi, pj, mode, auto_threshold, max_urban_threshold)`:
travel time in minutes plus half of each endpoint's visiting time, with an
explicit 0 short-circuit when the distance is 0. -/
def duration (G : GeoLib) (pi pj : Poi) (mode : String)
    (auto_threshold max_urban_threshold : ℚ) : ℚ :=
  let dist := distance_default G pi pj
  if dist = 0 then 0
  else
    let m := if mode = "auto" then auto_mode dist auto_threshold max_urban_threshold
             else mode
    let speed := TRANSPORT_MODES m
    let pi_visiting_time := pi.visitingTime.getD DEFAULT_VISITING_TIME
    let pj_visiting_time := pj.visitingTime.getD DEFAULT_VISITING_TIME
    let travel_time := (dist / speed) * MINUTES_PER_HOUR
    travel_time + pi_visiting_time / 2 + pj_visiting_time / 2

/-- `measure(source, target) = [distance(source, target), duration(source, target)]`
(both with Python default arguments). -/
def measure (G : GeoLib) (source target : Poi) : ℚ × ℚ :=
  (distance_default G source target,
   duration G source target "auto" MAX_WALK_DISTANCE MAX_URBAN_DISTANCE)

/-! ## CostMatrixBuilder: `measure_all`, `extract_from_list` -/

/-- The last element of `l` whose identifier is `key` (Python's repeated
`d[oid(t)] = ...` assignments make the last occurrence win). -/
def lookupLast (key : String) : List Poi → Option Poi
  | [] => none
  | x :: xs =>
    match lookupLast key xs with
    | some t => some t
    | none => if oid x = key then some x else none

/-- A Python loop of the shape `for t in l: d[oid(t)] = f(t)` starting from
dictionary `d`. -/
def dict_of_list {α : Type} (f : Poi → α) (l : List Poi) (d : Dict α) : Dict α :=
  l.foldl (fun acc t => dinsert (oid t) (f t) acc) d

/-- `measure_all(source, pois_target)`: one row of the cost matrix; a
self-identifier pair is short-circuited to `[0, 0]`. -/
def measure_all (G : GeoLib) (source : Poi) (pois_target : List Poi) :
    Dict (ℚ × ℚ) :=
  dict_of_list
    (fun target => if is_equals source target then (0, 0) else measure G source target)
    pois_target []

/-- `extract_from_list(pois)`: the PoI list together with the full
identifier-keyed measurement dictionary. -/
def extract_from_list (G : GeoLib) (pois : List Poi) :
    List Poi × Dict (Dict (ℚ × ℚ)) :=
  (pois, dict_of_list (fun pi => measure_all G pi pois) pois [])

/-- Two-level lookup `m[a][b]` in the value-level matrix built by
`extract_from_list`. -/
def mget (m : Dict (Dict (ℚ × ℚ))) (a b : String) : Option (ℚ × ℚ) :=
  match dget a m with
  | some row => dget b row
  | none => none

/-! ## The heap model for `set_hotel`

In Python the measurement matrix is a dict of dicts on the heap.
`set_hotel` copies the outer dict shallowly (`dict(measurement)`), so the
inner per-PoI rows are shared between the base matrix and the copy, and the
assignments `copy_measurement[poi_id][HOTEL_ID] = m` mutate those shared
rows.  The embedding makes the heap explicit: inner rows live in a store
(`List Row`) addressed by position, and outer dictionaries map identifiers
to addresses. -/

abbrev Row := Dict (ℚ × ℚ)

/-- Outer measurement dictionary: PoI identifier to row address. -/
abbrev OuterDict := Dict Nat

/-- Read the row at address `a` (the empty row for a dangling address). -/
def rowAt : List Row → Nat → Row
  | [], _ => []
  | r :: _, 0 => r
  | _ :: rest, a + 1 => rowAt rest a

/-- Overwrite the row at address `a` (no-op out of bounds). -/
def setRow : List Row → Nat → Row → List Row
  | [], _, _ => []
  | _ :: rest, 0, r => r :: rest
  | x :: rest, a + 1, r => x :: setRow rest a r

/-- One iteration of the `for poi in copy_pois` loop of `set_hotel`, acting on
the store: `copy_measurement[poi_id][HOTEL_ID] = measure(poi, hotel)` mutates
the shared inner row addressed by the base outer dictionary.  A missing key
would raise `KeyError` in Python; the embedding leaves the store unchanged in
that (never-exercised) case. -/
def hotel_store_step (G : GeoLib) (hotel : Poi) (measurement : OuterDict)
    (st : List Row) (poi : Poi) : List Row :=
  match dget (oid poi) measurement with
  | some addr => setRow st addr (dinsert HOTEL_ID (measure G poi hotel) (rowAt st addr))
  | none => st

/-- `set_hotel(hotel, pois, measurement)` over the explicit store.
The Python loop both mutates the shared rows and fills the fresh
`hotel_dict`; the two effects are independent, so they are split into the
store fold and a `dict_of_list`.  The fresh `hotel_dict` is allocated at the
end of the store, and only the shallow copy of the outer dictionary receives
the binding `HOTEL_ID -> hotel_dict`.
Returns `(copy_pois, copy_measurement, new store)`. -/
def set_hotel (G : GeoLib) (hotel : Poi) (pois : List Poi)
    (measurement : OuterDict) (store : List Row) :
    List Poi × OuterDict × List Row :=
  let store1 := pois.foldl (hotel_store_step G hotel measurement) store
  let hotel_dict :=
    dict_of_list (fun poi => measure G poi hotel) pois (dinsert HOTEL_ID (0, 0) [])
  let copy_pois := hotel :: pois
  let copy_measurement := dinsert HOTEL_ID store1.length measurement
  (copy_pois, copy_measurement, store1 ++ [hotel_dict])

/-- `measurement[from_id][to_id]` through the store. -/
def matrix_get (store : List Row) (m : OuterDict) (from_id to_id : String) :
    Option (ℚ × ℚ) :=
  match dget from_id m with
  | some addr => dget to_id (rowAt store addr)
  | none => none

/-! ## Tour and Trip (`vrptur.py`) -/

/-- `Trip`: one day's PoI sequence with accumulated duration and distance. -/
structure Trip where
  day : Nat
  pois : List Poi
  duration : ℚ
  distance : ℚ
deriving DecidableEq, Repr

/-- `Tour`: the trips of all days plus the solver's objective value. -/
structure Tour where
  days : Nat
  trips : List Trip
  duration : ℚ
deriving DecidableEq, Repr

/-- `Tour.distance()` exactly as written at `vrptur.py:53-57`: the loop body
is `sum += t.duration` — it accumulates each trip's *duration* field. -/
def Tour.distance (t : Tour) : ℚ :=
  t.trips.foldl (fun s tr => s + tr.duration) 0

/-- The quantity the specification describes: the sum of each trip's
*distance* field. -/
def sum_trip_distances (t : Tour) : ℚ :=
  t.trips.foldl (fun s tr => s + tr.distance) 0

/-! ## Solver contract and TourBuilder decoding -/

/-- The external solver's output: the objective value and, for each
vehicle/day, the node sequence from `routing.Start(day)` to the end
sentinel inclusive (so a route is `[depot, n_1, ..., n_k, depot]` and an
empty day is `[depot, depot]`). -/
structure Assignment where
  objective : ℚ
  routes : List (List Nat)
deriving DecidableEq, Repr

/-- Sum of a cost callback over the consecutive pairs of a route.  This is
what the decoding loop of `run_vrptur` accumulates: the `while` loop adds
the cost of each link up to the one before the sentinel and the tail code
adds the final link. -/
def decode_pair_sum (c : Nat → Nat → ℚ) : List Nat → ℚ
  | a :: b :: rest => c a b + decode_pair_sum c (b :: rest)
  | _ => 0

/-- Decode one vehicle's route into a `Trip`: the loop appends the PoI of
every visited node (the tail code appends the last two) and accumulates the
duration and distance callbacks over consecutive links. -/
def build_trip (pois : List Poi) (dur dist : Nat → Nat → ℚ) (day : Nat)
    (route : List Nat) : Trip :=
  { day := day,
    pois := route.map (fun n => pois.getD n default),
    duration := decode_pair_sum dur route,
    distance := decode_pair_sum dist route }

/-- `run_vrptur(pois, measurement, num_days)` with the duration and distance
callbacks (`CreateMeasurementCallback`) and the external solver abstracted as
parameters.  Returns the tour and the list of lines printed for the
non-fatal conditions (`else` branches of the source). -/
def run_vrptur (pois : List Poi) (dur dist : Nat → Nat → ℚ) (num_days : Nat)
    (solve : Unit → Option Assignment) : Tour × List String :=
  let tour : Tour := { days := num_days, trips := [], duration := 0 }
  if 0 < pois.length then
    match solve () with
    | some assignment =>
      ({ days := num_days,
         trips := (List.range num_days).map (fun day_nbr =>
           build_trip pois dur dist day_nbr (assignment.routes.getD day_nbr [])),
         duration := assignment.objective }, [])
    | none => (tour, ["No solution found for num_days = " ++ toString num_days])
  else (tour, ["Specify an instance (PoIs) greater than 0."])

/-! ## ExperimentRunner: the batch loop of `main()` -/

/-- One iteration of the inner `for hotel in hotels` loop of `main()`:
derive the depot-extended copies with `set_hotel` (threading the mutated
store), build the measurement callbacks, run `run_vrptur`, and append the
resulting tour.  The solver oracle is indexed by `(num_days, hotel index)`. -/
def main_inner (G : GeoLib) (hotels pois : List Poi) (measurement : OuterDict)
    (solv : Nat → Nat → Option Assignment) (num_days : Nat)
    (acc : List Tour × List Row) (hi : Nat) : List Tour × List Row :=
  let r := set_hotel G (hotels.getD hi default) pois measurement acc.2
  let dcb := fun i j =>
    (matrix_get r.2.2 r.2.1 (oid (r.1.getD i default)) (oid (r.1.getD j default))).getD (0, 0)
  let tour := (run_vrptur r.1 (fun i j => (dcb i j).2) (fun i j => (dcb i j).1)
    num_days (fun _ => solv num_days hi)).1
  (acc.1 ++ [tour], r.2.2)

/-- The batch double loop of `main()`:
`for num_days in days_range: for hotel in hotels: ...`, collecting one tour
per combination. -/
def main_loop (G : GeoLib) (days_range : List Nat) (hotels pois : List Poi)
    (measurement : OuterDict) (solv : Nat → Nat → Option Assignment)
    (store0 : List Row) : List Tour × List Row :=
  days_range.foldl (fun acc num_days =>
    (List.range hotels.length).foldl
      (main_inner G hotels pois measurement solv num_days) acc)
    ([], store0)

/-! ## Concrete instances used by witnesses and counterexamples

`Gex` instantiates the external geometric library with a simple computable
symmetric form (squared Euclidean distance on the coordinate pairs and the
identity for the trigonometric helpers); the theorems' hypotheses about the
library hold for it by `ring`-level reasoning. -/

def Gex : GeoLib :=
  { hav := fun a b => (a.1 - b.1) * (a.1 - b.1) + (a.2 - b.2) * (a.2 - b.2),
    sin := fun x => x,
    sqrt := fun x => x,
    atan2 := fun y x => y + 0 * x,
    radians := fun x => x }

def exHotel : Poi := make_skinny_poi "hotel" "Hotel H" "Av. Beira Mar, 848" 0 0

def exPoi : Poi := make_skinny_poi "p" "PoI P" "Av. A, 1" 1 0

def exPoi2 : Poi := make_skinny_poi "q" "PoI Q" "Av. B, 2" 2 0

/-- Two PoIs sharing one identifier but with different coordinates. -/
def dupA : Poi := make_skinny_poi "x" "Dup A" "Av. C, 3" 0 0

def dupB : Poi := make_skinny_poi "x" "Dup B" "Av. D, 4" 3 0

/-- A one-PoI base store: the single row of the matrix for `exPoi`. -/
def exStore : List Row := [[("p", (0, 0))]]

/-- The base outer dictionary addressing `exStore`. -/
def exMeas : OuterDict := [("p", 0)]

/-- A two-PoI base store for the depot-insertion witness. -/
def exStore2 : List Row :=
  [[("p", (0, 0)), ("q", (1, 2))], [("q", (0, 0)), ("p", (1, 2))]]

def exMeas2 : OuterDict := [("p", 0), ("q", 1)]

/-- A solver assignment with one day and route depot -> node 1 -> depot. -/
def exAsgC1 : Assignment := { objective := 10, routes := [[0, 1, 0]] }

/-- A tour produced by `run_vrptur` whose single trip accumulates
duration 10 min and distance 5 km. -/
def exTourC1 : Tour :=
  (run_vrptur [exHotel, exPoi] (fun _ _ => 5) (fun _ _ => 5 / 2) 1
    (fun _ => some exAsgC1)).1

end VRPTur

/-! # Lemmas -/

namespace VRPTur

theorem dget_map_update_self {α : Type} (k : String) (v : α) :
    ∀ d : Dict α, dcontains k d = true →
      dget k (d.map (fun kv => if kv.1 = k then (k, v) else kv)) = some v
  | [], h => by simp [dcontains] at h
  | kv :: rest, h => by
      by_cases hk : kv.1 = k
      · simp [dget, hk]
      · have h2 : dcontains k rest = true := by simpa [dcontains, hk] using h
        simpa [dget, hk] using dget_map_update_self k v rest h2

theorem dget_map_update_ne {α : Type} (k k2 : String) (v : α) (h : k2 ≠ k) :
    ∀ d : Dict α,
      dget k2 (d.map (fun kv => if kv.1 = k then (k, v) else kv)) = dget k2 d
  | [] => rfl
  | kv :: rest => by
      by_cases hk2 : kv.1 = k2
      · have hk : ¬ kv.1 = k := by rw [hk2]; exact h
        simp only [List.map_cons, if_neg hk, dget, if_pos hk2]
      · by_cases hk : kv.1 = k
        · simp only [List.map_cons, if_pos hk, dget]
          rw [if_neg (Ne.symm h), if_neg hk2]
          exact dget_map_update_ne k k2 v h rest
        · simp only [List.map_cons, if_neg hk, dget, if_neg hk2]
          exact dget_map_update_ne k k2 v h rest

theorem dget_append_single_self {α : Type} (k : String) (v : α) :
    ∀ d : Dict α, dcontains k d = false → dget k (d ++ [(k, v)]) = some v
  | [], _ => by simp [dget]
  | kv :: rest, h => by
      have hk : ¬ kv.1 = k := by
        intro hc
        simp [dcontains, hc] at h
      have h2 : dcontains k rest = false := by
        simpa [dcontains, hk] using h
      simpa [dget, hk] using dget_append_single_self k v rest h2

theorem dget_append_single_ne {α : Type} (k k2 : String) (v : α) (h : k2 ≠ k) :
    ∀ d : Dict α, dget k2 (d ++ [(k, v)]) = dget k2 d
  | [] => by simp [dget, Ne.symm h]
  | kv :: rest => by
      by_cases hk : kv.1 = k2
      · simp [dget, hk]
      · simpa [dget, hk] using dget_append_single_ne k k2 v h rest

theorem dget_dinsert_self {α : Type} (k : String) (v : α) (d : Dict α) :
    dget k (dinsert k v d) = some v := by
  unfold dinsert
  cases hc : dcontains k d with
  | true => simpa [hc] using dget_map_update_self k v d hc
  | false => simpa [hc] using dget_append_single_self k v d hc

theorem dget_dinsert_ne {α : Type} (k k2 : String) (v : α) (d : Dict α)
    (h : k2 ≠ k) : dget k2 (dinsert k v d) = dget k2 d := by
  unfold dinsert
  cases hc : dcontains k d with
  | true => simpa [hc] using dget_map_update_ne k k2 v h d
  | false => simpa [hc] using dget_append_single_ne k k2 v h d

theorem lookupLast_oid (k : String) :
    ∀ (l : List Poi) (t : Poi), lookupLast k l = some t → oid t = k
  | [], t, h => by simp [lookupLast] at h
  | x :: xs, t, h => by
      unfold lookupLast at h
      cases hxs : lookupLast k xs with
      | some u =>
          rw [hxs] at h
          cases h
          exact lookupLast_oid k xs _ hxs
      | none =>
          rw [hxs] at h
          by_cases hx : oid x = k
          · simp [hx] at h; rw [← h]; exact hx
          · simp [hx] at h

theorem lookupLast_isSome (p : Poi) :
    ∀ l : List Poi, p ∈ l → (lookupLast (oid p) l).isSome = true
  | [], h => by simp at h
  | x :: xs, h => by
      unfold lookupLast
      cases hxs : lookupLast (oid p) xs with
      | some u => simp
      | none =>
          rcases List.mem_cons.mp h with hpx | hpxs
          · simp [← hpx]
          · have := lookupLast_isSome p xs hpxs
            rw [hxs] at this
            simp at this

theorem lookupLast_eq_none (k : String) :
    ∀ l : List Poi, (∀ q ∈ l, oid q ≠ k) → lookupLast k l = none
  | [], _ => rfl
  | x :: xs, h => by
      unfold lookupLast
      rw [lookupLast_eq_none k xs (fun q hq => h q (List.mem_cons_of_mem x hq))]
      simp [h x (List.mem_cons_self x xs)]

theorem lookupLast_nodup (p : Poi) :
    ∀ l : List Poi, (l.map oid).Nodup → p ∈ l → lookupLast (oid p) l = some p
  | [], _, h => by simp at h
  | x :: xs, hnd, h => by
      rw [List.map_cons, List.nodup_cons] at hnd
      unfold lookupLast
      rcases List.mem_cons.mp h with hpx | hpxs
      · subst hpx
        rw [lookupLast_eq_none (oid p) xs ?_]
        · simp
        · intro q hq hqe
          exact hnd.1 (hqe ▸ List.mem_map_of_mem oid hq)
      · rw [lookupLast_nodup p xs hnd.2 hpxs]

theorem dget_dict_of_list {α : Type} (f : Poi → α) (k : String) :
    ∀ (l : List Poi) (d : Dict α),
      dget k (dict_of_list f l d) =
        match lookupLast k l with
        | some t => some (f t)
        | none => dget k d
  | [], d => by simp [dict_of_list, lookupLast]
  | x :: xs, d => by
      have ih := dget_dict_of_list f k xs (dinsert (oid x) (f x) d)
      rw [show dict_of_list f (x :: xs) d
            = dict_of_list f xs (dinsert (oid x) (f x) d) from rfl, ih]
      cases hxs : lookupLast k xs with
      | some t => simp [lookupLast, hxs]
      | none =>
          by_cases hx : oid x = k
          · subst hx
            simp [lookupLast, hxs, dget_dinsert_self]
          · simp [lookupLast, hxs, hx, dget_dinsert_ne (oid x) k (f x) d (Ne.symm hx)]

theorem dget_measure_all (G : GeoLib) (s : Poi) (l : List Poi) (k : String) :
    dget k (measure_all G s l) =
      (lookupLast k l).map
        (fun t => if is_equals s t then (0, 0) else measure G s t) := by
  unfold measure_all
  rw [dget_dict_of_list]
  cases lookupLast k l with
  | some t => rfl
  | none => rfl

theorem dget_extract (G : GeoLib) (l : List Poi) (k : String) :
    dget k (extract_from_list G l).2 =
      (lookupLast k l).map (fun p => measure_all G p l) := by
  unfold extract_from_list
  rw [dget_dict_of_list]
  cases lookupLast k l with
  | some t => rfl
  | none => rfl

theorem is_equals_comm (pi pj : Poi) : is_equals pi pj = is_equals pj pi := by
  simp [is_equals, eq_comm]

theorem in_same_avenue_comm (pi pj : Poi) :
    in_same_avenue pi pj = in_same_avenue pj pi := by
  unfold in_same_avenue
  cases get_avenue pi <;> cases get_avenue pj <;> simp [eq_comm]

theorem sin_sq_swap (G : GeoLib) (hsin : ∀ x, G.sin (-x) = - G.sin x) (x y : ℚ) :
    G.sin ((x - y) / 2) ^ 2 = G.sin ((y - x) / 2) ^ 2 := by
  have h : (x - y) / 2 = -((y - x) / 2) := by ring
  rw [h, hsin, neg_sq]

theorem manhattan_distance_symm (G : GeoLib)
    (hsin : ∀ x, G.sin (-x) = - G.sin x) (a b c d : ℚ) :
    manhattan_distance G a b c d = manhattan_distance G c d a b := by
  simp only [manhattan_distance]
  rw [sin_sq_swap G hsin (G.radians d) (G.radians b),
    sin_sq_swap G hsin (G.radians c) (G.radians a)]

theorem distance_default_symm (G : GeoLib)
    (hsym : ∀ a b, G.hav a b = G.hav b a) (pi pj : Poi) :
    distance_default G pi pj = distance_default G pj pi :=
  hsym _ _

theorem distance_symm (G : GeoLib) (hsym : ∀ a b, G.hav a b = G.hav b a)
    (hsin : ∀ x, G.sin (-x) = - G.sin x) (pi pj : Poi) (smart : Bool) :
    distance G pi pj smart (haversine_distance G) =
      distance G pj pi smart (haversine_distance G) := by
  cases smart with
  | false => exact hsym _ _
  | true =>
      simp only [distance, in_same_avenue_comm pj pi]
      by_cases h : in_same_avenue pi pj = true
      · simp only [h, if_true]
        exact hsym _ _
      · simp only [h, if_false, Bool.false_eq_true]
        exact manhattan_distance_symm G hsin _ _ _ _

theorem duration_symm (G : GeoLib) (hsym : ∀ a b, G.hav a b = G.hav b a)
    (pi pj : Poi) (mode : String) (th uth : ℚ) :
    duration G pi pj mode th uth = duration G pj pi mode th uth := by
  simp only [duration]
  rw [distance_default_symm G hsym pi pj]
  by_cases h : distance_default G pj pi = 0
  · simp [h]
  · simp only [h, if_false]
    ring

theorem measure_symm (G : GeoLib) (hsym : ∀ a b, G.hav a b = G.hav b a)
    (s t : Poi) : measure G s t = measure G t s := by
  unfold measure
  rw [distance_default_symm G hsym s t, duration_symm G hsym s t]

theorem rowAt_setRow_self :
    ∀ (st : List Row) (a : Nat) (r : Row), a < st.length →
      rowAt (setRow st a r) a = r
  | [], a, r, h => absurd h (by simp)
  | x :: rest, 0, r, _ => rfl
  | x :: rest, a + 1, r, h =>
      rowAt_setRow_self rest a r (by simpa using h)

theorem rowAt_setRow_ne :
    ∀ (st : List Row) (a b : Nat) (r : Row), a ≠ b →
      rowAt (setRow st a r) b = rowAt st b
  | [], _, _, _, _ => rfl
  | x :: rest, 0, 0, r, h => absurd rfl h
  | x :: rest, 0, b + 1, r, _ => rfl
  | x :: rest, a + 1, 0, r, _ => rfl
  | x :: rest, a + 1, b + 1, r, h =>
      rowAt_setRow_ne rest a b r (fun hc => h (by rw [hc]))

theorem length_setRow :
    ∀ (st : List Row) (a : Nat) (r : Row), (setRow st a r).length = st.length
  | [], _, _ => rfl
  | _ :: rest, 0, _ => rfl
  | x :: rest, a + 1, r => by simp [setRow, length_setRow rest a r]

theorem setRow_oob :
    ∀ (st : List Row) (a : Nat) (r : Row), st.length ≤ a → setRow st a r = st
  | [], _, _, _ => rfl
  | x :: rest, 0, r, h => absurd h (by simp)
  | x :: rest, a + 1, r, h => by
      simp [setRow, setRow_oob rest a r (by simpa using h)]

theorem rowAt_append :
    ∀ (st : List Row) (r : Row) (a : Nat), a < st.length →
      rowAt (st ++ [r]) a = rowAt st a
  | [], r, a, h => absurd h (by simp)
  | x :: rest, r, 0, _ => rfl
  | x :: rest, r, a + 1, h => rowAt_append rest r a (by simpa using h)

theorem rowAt_append_last :
    ∀ (st : List Row) (r : Row), rowAt (st ++ [r]) st.length = r
  | [], r => rfl
  | x :: rest, r => rowAt_append_last rest r

theorem length_hotel_store_step (G : GeoLib) (hotel : Poi) (m : OuterDict)
    (st : List Row) (x : Poi) :
    (hotel_store_step G hotel m st x).length = st.length := by
  cases h : dget (oid x) m with
  | some addr => simp [hotel_store_step, h, length_setRow]
  | none => simp [hotel_store_step, h]

theorem length_store_fold (G : GeoLib) (hotel : Poi) (m : OuterDict) :
    ∀ (l : List Poi) (st : List Row),
      (l.foldl (hotel_store_step G hotel m) st).length = st.length
  | [], st => rfl
  | x :: xs, st => by
      rw [List.foldl_cons, length_store_fold G hotel m xs]
      exact length_hotel_store_step G hotel m st x

theorem frame_store_fold (G : GeoLib) (hotel : Poi) (m : OuterDict)
    (k : String) (hk : k ≠ HOTEL_ID) :
    ∀ (l : List Poi) (st : List Row) (a : Nat),
      dget k (rowAt (l.foldl (hotel_store_step G hotel m) st) a)
        = dget k (rowAt st a)
  | [], st, a => rfl
  | x :: xs, st, a => by
      rw [List.foldl_cons, frame_store_fold G hotel m k hk xs]
      cases h : dget (oid x) m with
      | none => simp [hotel_store_step, h]
      | some addr =>
          simp only [hotel_store_step, h]
          by_cases hab : addr = a
          · subst hab
            by_cases hlt : addr < st.length
            · rw [rowAt_setRow_self st addr _ hlt,
                dget_dinsert_ne HOTEL_ID k _ _ hk]
            · rw [setRow_oob st addr _ (le_of_not_lt hlt)]
          · rw [rowAt_setRow_ne st addr a _ hab]

theorem untouched_store_fold (G : GeoLib) (hotel : Poi) (m : OuterDict)
    (a : Nat) :
    ∀ (l : List Poi) (st : List Row),
      (∀ q ∈ l, ∀ aq, dget (oid q) m = some aq → aq ≠ a) →
      rowAt (l.foldl (hotel_store_step G hotel m) st) a = rowAt st a
  | [], st, _ => rfl
  | x :: xs, st, h => by
      rw [List.foldl_cons,
        untouched_store_fold G hotel m a xs _
          (fun q hq => h q (List.mem_cons_of_mem x hq))]
      cases hx : dget (oid x) m with
      | none => simp [hotel_store_step, hx]
      | some addr =>
          have hne : addr ≠ a := h x (List.mem_cons_self x xs) addr hx
          simp only [hotel_store_step, hx]
          exact rowAt_setRow_ne st addr a _ hne

theorem hotel_entry_store_fold (G : GeoLib) (hotel : Poi) (m : OuterDict) :
    ∀ (l : List Poi) (st : List Row) (p : Poi), p ∈ l →
      (∀ q ∈ l, (dget (oid q) m).isSome = true ∧
        (dget (oid q) m).getD 0 < st.length) →
      (l.map (fun q => (dget (oid q) m).getD 0)).Nodup →
      dget HOTEL_ID
          (rowAt (l.foldl (hotel_store_step G hotel m) st)
            ((dget (oid p) m).getD 0))
        = some (measure G p hotel)
  | [], st, p, hp, _, _ => absurd hp (by simp)
  | x :: xs, st, p, hp, hwf, hnd => by
      rw [List.map_cons, List.nodup_cons] at hnd
      obtain ⟨hsome, hlt⟩ := hwf x (List.mem_cons_self x xs)
      obtain ⟨ax, hax⟩ := Option.isSome_iff_exists.mp hsome
      have haxD : (dget (oid x) m).getD 0 = ax := by rw [hax]; rfl
      rw [List.foldl_cons]
      rcases List.mem_cons.mp hp with hpx | hpxs
      · subst hpx
        rw [untouched_store_fold G hotel m _ xs _ ?hunt]
        case hunt =>
          intro q hq aq haq hc
          apply hnd.1
          have haqD : (dget (oid q) m).getD 0 = aq := by rw [haq]; rfl
          rw [← hc, ← haqD]
          exact List.mem_map_of_mem _ hq
        simp only [hotel_store_step, hax, Option.getD_some]
        rw [rowAt_setRow_self st ax _ (haxD ▸ hlt)]
        exact dget_dinsert_self HOTEL_ID _ _
      · apply hotel_entry_store_fold G hotel m xs _ p hpxs ?wf hnd.2
        intro q hq
        refine ⟨(hwf q (List.mem_cons_of_mem x hq)).1, ?_⟩
        rw [length_hotel_store_step G hotel m st x]
        exact (hwf q (List.mem_cons_of_mem x hq)).2

theorem main_inner_fold_len (G : GeoLib) (hotels pois : List Poi)
    (m : OuterDict) (solv : Nat → Nat → Option Assignment) (nd : Nat) :
    ∀ (l : List Nat) (acc : List Tour × List Row),
      ((l.foldl (main_inner G hotels pois m solv nd) acc).1).length
        = acc.1.length + l.length
  | [], acc => by simp
  | x :: xs, acc => by
      rw [List.foldl_cons, main_inner_fold_len G hotels pois m solv nd xs]
      simp [main_inner]
      ring

theorem main_outer_fold_len (G : GeoLib) (hotels pois : List Poi)
    (m : OuterDict) (solv : Nat → Nat → Option Assignment) :
    ∀ (days : List Nat) (acc : List Tour × List Row),
      ((days.foldl (fun acc num_days =>
          (List.range hotels.length).foldl
            (main_inner G hotels pois m solv num_days) acc) acc).1).length
        = acc.1.length + days.length * hotels.length
  | [], acc => by simp
  | x :: xs, acc => by
      rw [List.foldl_cons, main_outer_fold_len G hotels pois m solv xs,
        main_inner_fold_len G hotels pois m solv x]
      simp [List.length_range]
      ring

theorem main_loop_len (G : GeoLib) (days_range : List Nat)
    (hotels pois : List Poi) (m : OuterDict)
    (solv : Nat → Nat → Option Assignment) (store0 : List Row) :
    ((main_loop G days_range hotels pois m solv store0).1).length
      = days_range.length * hotels.length := by
  unfold main_loop
  rw [main_outer_fold_len G hotels pois m solv days_range]
  simp

theorem dist_exPoi_exHotel : distance_default Gex exPoi exHotel = 1 := by
  norm_num [distance_default, distance, haversine_distance, Gex, exPoi,
    exHotel, make_skinny_poi]

end VRPTur

/-! # Claims -/

namespace VRPTur

/-- Claim C3: for PoIs at nonzero distance, `duration` in auto mode selects
"car" when `dist ≤ 2` and additionally `dist ≤ 20`, "carInHighway" when
`dist ≤ 2` but `dist > 20`, and "walk" when `dist > 2`; the result is
`(dist / mode_speed) * 60` plus half of each PoI's visiting time (default
30), and at exactly 1 km with default visiting times it is
`(1/50)*60 + 15 + 15` minutes. -/
theorem C3_duration_auto (G : GeoLib) (pi pj : Poi)
    (h : 0 < distance_default G pi pj) :
    duration G pi pj "auto" MAX_WALK_DISTANCE MAX_URBAN_DISTANCE =
      (distance_default G pi pj /
        TRANSPORT_MODES (auto_mode (distance_default G pi pj)
          MAX_WALK_DISTANCE MAX_URBAN_DISTANCE)) * MINUTES_PER_HOUR
      + pi.visitingTime.getD DEFAULT_VISITING_TIME / 2
      + pj.visitingTime.getD DEFAULT_VISITING_TIME / 2 ∧
    (distance_default G pi pj ≤ 2 → distance_default G pi pj ≤ 20 →
      auto_mode (distance_default G pi pj) MAX_WALK_DISTANCE MAX_URBAN_DISTANCE
        = "car") ∧
    (distance_default G pi pj ≤ 2 → 20 < distance_default G pi pj →
      auto_mode (distance_default G pi pj) MAX_WALK_DISTANCE MAX_URBAN_DISTANCE
        = "carInHighway") ∧
    (2 < distance_default G pi pj →
      auto_mode (distance_default G pi pj) MAX_WALK_DISTANCE MAX_URBAN_DISTANCE
        = "walk") ∧
    (distance_default G pi pj = 1 → pi.visitingTime = none →
      pj.visitingTime = none →
      duration G pi pj "auto" MAX_WALK_DISTANCE MAX_URBAN_DISTANCE
        = (1 / 50) * 60 + 15 + 15) := by
  refine ⟨?_, ?_, ?_, ?_, ?_⟩
  · simp [duration, ne_of_gt h]
  · intro h1 h2
    simp [auto_mode, MAX_WALK_DISTANCE, MAX_URBAN_DISTANCE, h1, h2]
  · intro h1 h2
    simp [auto_mode, MAX_WALK_DISTANCE, MAX_URBAN_DISTANCE, h1, not_le.mpr h2]
  · intro h1
    simp [auto_mode, MAX_WALK_DISTANCE, MAX_URBAN_DISTANCE, not_le.mpr h1]
  · intro h1 hvi hvj
    simp [duration, h1, hvi, hvj, auto_mode, MAX_WALK_DISTANCE,
      MAX_URBAN_DISTANCE, TRANSPORT_MODES, MINUTES_PER_HOUR,
      DEFAULT_VISITING_TIME]
    norm_num

/-- Witness for C3: `exPoi` and `exHotel` are at distance exactly 1 under
`Gex`, have no stored visiting time, and realise all hypotheses. -/
theorem C3_duration_auto_witness :
    duration Gex exPoi exHotel "auto" MAX_WALK_DISTANCE MAX_URBAN_DISTANCE =
      (distance_default Gex exPoi exHotel /
        TRANSPORT_MODES (auto_mode (distance_default Gex exPoi exHotel)
          MAX_WALK_DISTANCE MAX_URBAN_DISTANCE)) * MINUTES_PER_HOUR
      + exPoi.visitingTime.getD DEFAULT_VISITING_TIME / 2
      + exHotel.visitingTime.getD DEFAULT_VISITING_TIME / 2 ∧
    (distance_default Gex exPoi exHotel ≤ 2 →
      distance_default Gex exPoi exHotel ≤ 20 →
      auto_mode (distance_default Gex exPoi exHotel)
        MAX_WALK_DISTANCE MAX_URBAN_DISTANCE = "car") ∧
    (distance_default Gex exPoi exHotel ≤ 2 →
      20 < distance_default Gex exPoi exHotel →
      auto_mode (distance_default Gex exPoi exHotel)
        MAX_WALK_DISTANCE MAX_URBAN_DISTANCE = "carInHighway") ∧
    (2 < distance_default Gex exPoi exHotel →
      auto_mode (distance_default Gex exPoi exHotel)
        MAX_WALK_DISTANCE MAX_URBAN_DISTANCE = "walk") ∧
    (distance_default Gex exPoi exHotel = 1 → exPoi.visitingTime = none →
      exHotel.visitingTime = none →
      duration Gex exPoi exHotel "auto" MAX_WALK_DISTANCE MAX_URBAN_DISTANCE
        = (1 / 50) * 60 + 15 + 15) :=
  C3_duration_auto Gex exPoi exHotel (by rw [dist_exPoi_exHotel]; norm_num)

/-- Claim C9: with the default thresholds (2 km, 20 km) the
"carInHighway" branch of the auto mode selection is unreachable: the mode is
"car" (50 km/h) for `dist ≤ 2` and "walk" (6 km/h) otherwise. -/
theorem C9_highway_unreachable (G : GeoLib) (pi pj : Poi)
    (h : 0 < distance_default G pi pj) :
    auto_mode (distance_default G pi pj) MAX_WALK_DISTANCE MAX_URBAN_DISTANCE
      ≠ "carInHighway" ∧
    (distance_default G pi pj ≤ 2 →
      auto_mode (distance_default G pi pj) MAX_WALK_DISTANCE MAX_URBAN_DISTANCE
        = "car") ∧
    (2 < distance_default G pi pj →
      auto_mode (distance_default G pi pj) MAX_WALK_DISTANCE MAX_URBAN_DISTANCE
        = "walk") ∧
    TRANSPORT_MODES "car" = 50 ∧ TRANSPORT_MODES "walk" = 6 := by
  have hcar : distance_default G pi pj ≤ 2 →
      auto_mode (distance_default G pi pj)
        MAX_WALK_DISTANCE MAX_URBAN_DISTANCE = "car" := by
    intro h1
    have h2 : distance_default G pi pj ≤ 20 := le_trans h1 (by norm_num)
    simp [auto_mode, MAX_WALK_DISTANCE, MAX_URBAN_DISTANCE, h1, h2]
  have hwalk : 2 < distance_default G pi pj →
      auto_mode (distance_default G pi pj)
        MAX_WALK_DISTANCE MAX_URBAN_DISTANCE = "walk" := by
    intro h1
    simp [auto_mode, MAX_WALK_DISTANCE, MAX_URBAN_DISTANCE, not_le.mpr h1]
  refine ⟨?_, hcar, hwalk, by decide, by decide⟩
  by_cases h1 : distance_default G pi pj ≤ 2
  · rw [hcar h1]
    decide
  · rw [hwalk (not_le.mp h1)]
    decide

/-- Witness for C9 at the concrete 1-km pair. -/
theorem C9_highway_unreachable_witness :
    auto_mode (distance_default Gex exPoi exHotel)
      MAX_WALK_DISTANCE MAX_URBAN_DISTANCE ≠ "carInHighway" ∧
    (distance_default Gex exPoi exHotel ≤ 2 →
      auto_mode (distance_default Gex exPoi exHotel)
        MAX_WALK_DISTANCE MAX_URBAN_DISTANCE = "car") ∧
    (2 < distance_default Gex exPoi exHotel →
      auto_mode (distance_default Gex exPoi exHotel)
        MAX_WALK_DISTANCE MAX_URBAN_DISTANCE = "walk") ∧
    TRANSPORT_MODES "car" = 50 ∧ TRANSPORT_MODES "walk" = 6 :=
  C9_highway_unreachable Gex exPoi exHotel (by rw [dist_exPoi_exHotel]; norm_num)

/-- Claim C5: `distance(p, p) = 0` and `duration(p, p) = 0` (given that the
external haversine library vanishes on identical points), and the matrix
built by `extract_from_list` has `(0, 0)` at every self pair. -/
theorem C5_self_zero (G : GeoLib) (hzero : ∀ a, G.hav a a = 0) (p : Poi)
    (l : List Poi) (hp : p ∈ l) :
    distance_default G p p = 0 ∧
    duration G p p "auto" MAX_WALK_DISTANCE MAX_URBAN_DISTANCE = 0 ∧
    mget (extract_from_list G l).2 (oid p) (oid p) = some (0, 0) := by
  obtain ⟨pa, hpa⟩ := Option.isSome_iff_exists.mp (lookupLast_isSome p l hp)
  refine ⟨hzero _, ?_, ?_⟩
  · simp [duration, show distance_default G p p = 0 from hzero _]
  · unfold mget
    rw [dget_extract G l (oid p), hpa]
    simp only [Option.map_some']
    rw [dget_measure_all G pa l (oid p), hpa]
    simp [is_equals]

/-- Witness for C5: the library instance `Gex` vanishes on identical points
and `exPoi` is a member of the two-PoI list. -/
theorem C5_self_zero_witness :
    distance_default Gex exPoi exPoi = 0 ∧
    duration Gex exPoi exPoi "auto" MAX_WALK_DISTANCE MAX_URBAN_DISTANCE = 0 ∧
    mget (extract_from_list Gex [exPoi, exPoi2]).2 (oid exPoi) (oid exPoi)
      = some (0, 0) :=
  C5_self_zero Gex (fun a => by simp [Gex]) exPoi [exPoi, exPoi2] (by simp)

/-- Claim C4: `distance` and `duration` are symmetric in their two PoIs
(given symmetry of the external haversine function and oddness of sine), and
the matrix built by `extract_from_list` is symmetric on every pair of member
identifiers. -/
theorem C4_symmetry (G : GeoLib) (hsym : ∀ a b, G.hav a b = G.hav b a)
    (hsin : ∀ x, G.sin (-x) = - G.sin x) (pi pj : Poi) (smart : Bool)
    (mode : String) (th uth : ℚ) (l : List Poi) (hpi : pi ∈ l)
    (hpj : pj ∈ l) :
    distance G pi pj smart (haversine_distance G) =
      distance G pj pi smart (haversine_distance G) ∧
    duration G pi pj mode th uth = duration G pj pi mode th uth ∧
    mget (extract_from_list G l).2 (oid pi) (oid pj) =
      mget (extract_from_list G l).2 (oid pj) (oid pi) := by
  refine ⟨distance_symm G hsym hsin pi pj smart,
    duration_symm G hsym pi pj mode th uth, ?_⟩
  obtain ⟨pa, hpa⟩ := Option.isSome_iff_exists.mp (lookupLast_isSome pi l hpi)
  obtain ⟨pb, hpb⟩ := Option.isSome_iff_exists.mp (lookupLast_isSome pj l hpj)
  unfold mget
  rw [dget_extract G l (oid pi), dget_extract G l (oid pj), hpa, hpb]
  simp only [Option.map_some']
  rw [dget_measure_all G pa l (oid pj), dget_measure_all G pb l (oid pi),
    hpb, hpa]
  simp only [Option.map_some']
  rw [is_equals_comm pb pa]
  by_cases he : is_equals pa pb = true
  · simp [he]
  · simp [he, measure_symm G hsym pa pb]

/-- Witness for C4 at concrete PoIs; the hypotheses about `Gex` are closed
by ring-level reasoning. -/
theorem C4_symmetry_witness :
    distance Gex exPoi exPoi2 false (haversine_distance Gex) =
      distance Gex exPoi2 exPoi false (haversine_distance Gex) ∧
    duration Gex exPoi exPoi2 "auto" MAX_WALK_DISTANCE MAX_URBAN_DISTANCE =
      duration Gex exPoi2 exPoi "auto" MAX_WALK_DISTANCE MAX_URBAN_DISTANCE ∧
    mget (extract_from_list Gex [exPoi, exPoi2]).2 (oid exPoi) (oid exPoi2) =
      mget (extract_from_list Gex [exPoi, exPoi2]).2 (oid exPoi2) (oid exPoi) :=
  C4_symmetry Gex (fun a b => by simp [Gex]; ring) (fun x => by simp [Gex])
    exPoi exPoi2 false "auto" MAX_WALK_DISTANCE MAX_URBAN_DISTANCE
    [exPoi, exPoi2] (by simp) (by simp)

/-- Claim C10: PoI equality and matrix keying are by identifier only:
`measure_all` records `[0, 0]` for any target sharing the source's
identifier (regardless of coordinates), the matrix row of an identifier is
the `measure_all` row of its last occurrence (later entries overwrite
earlier ones), and PoIs sharing an identifier collapse to a single row. -/
theorem C10_id_keying (G : GeoLib) (s t : Poi) (l : List Poi)
    (ht : t ∈ l) (hts : oid t = oid s)
    (pi pj : Poi) (hpi : pi ∈ l) (hpj : pj ∈ l) (hij : oid pi = oid pj) :
    dget (oid s) (measure_all G s l) = some (0, 0) ∧
    dget (oid pi) (extract_from_list G l).2 =
      (lookupLast (oid pi) l).map (fun p => measure_all G p l) ∧
    dget (oid pi) (extract_from_list G l).2 =
      dget (oid pj) (extract_from_list G l).2 := by
  have hl : (lookupLast (oid s) l).isSome = true := by
    have := lookupLast_isSome t l ht
    rwa [hts] at this
  obtain ⟨u, hu⟩ := Option.isSome_iff_exists.mp hl
  have hou : oid u = oid s := lookupLast_oid (oid s) l u hu
  refine ⟨?_, dget_extract G l (oid pi), by rw [hij]⟩
  rw [dget_measure_all G s l (oid s), hu]
  simp [is_equals, hou]

/-- Witness for C10: `dupA` and `dupB` share the identifier "x" but have
different coordinates. -/
theorem C10_id_keying_witness :
    dget (oid dupA) (measure_all Gex dupA [dupA, dupB]) = some (0, 0) ∧
    dget (oid dupA) (extract_from_list Gex [dupA, dupB]).2 =
      (lookupLast (oid dupA) [dupA, dupB]).map
        (fun p => measure_all Gex p [dupA, dupB]) ∧
    dget (oid dupA) (extract_from_list Gex [dupA, dupB]).2 =
      dget (oid dupB) (extract_from_list Gex [dupA, dupB]).2 :=
  C10_id_keying Gex dupA dupB [dupA, dupB] (by simp) rfl
    dupA dupB (by simp) (by simp) rfl

/-- Claim C1 (code bug): `Tour.distance()` is specified to return the sum of
the trips' distance fields, but the loop at `vrptur.py:56` sums the trips'
duration fields.  On the tour produced by `run_vrptur` from a route whose
single trip accumulates duration 10 and distance 5, `Tour.distance()`
returns 10, not 5. -/
theorem C1_code_bug :
    Tour.distance exTourC1 = 10 ∧ sum_trip_distances exTourC1 = 5 ∧
    Tour.distance exTourC1 ≠ sum_trip_distances exTourC1 := by
  have h1 : Tour.distance exTourC1 = 10 := by
    norm_num [exTourC1, run_vrptur, exAsgC1, build_trip, decode_pair_sum,
      Tour.distance, List.range_succ, List.getD]
  have h2 : sum_trip_distances exTourC1 = 5 := by
    norm_num [exTourC1, run_vrptur, exAsgC1, build_trip, decode_pair_sum,
      sum_trip_distances, List.range_succ, List.getD]
  refine ⟨h1, h2, ?_⟩
  rw [h1, h2]
  norm_num

/-- Claim C8: for an empty PoI list `run_vrptur` returns a tour with no
trips and duration 0, prints the non-fatal "nothing to plan" line, and its
result does not depend on the solver (the solver is never invoked: the
branch guard `num_pois > 0` fails before the routing model is built). -/
theorem C8_empty_pois (dur dist : Nat → Nat → ℚ) (num_days : Nat)
    (solve solve2 : Unit → Option Assignment) :
    (run_vrptur [] dur dist num_days solve).1.trips = [] ∧
    (run_vrptur [] dur dist num_days solve).1.duration = 0 ∧
    (run_vrptur [] dur dist num_days solve).2 =
      ["Specify an instance (PoIs) greater than 0."] ∧
    run_vrptur [] dur dist num_days solve =
      run_vrptur [] dur dist num_days solve2 := by
  refine ⟨?_, ?_, ?_, ?_⟩ <;> simp [run_vrptur]

/-- Claim C7: when the solver returns no solution for a (hotel, day-count)
pair, `run_vrptur` returns a tour with no trips and duration 0, the
condition is reported by a non-fatal print line, and the batch loop of
`main` still produces one result slot per (day-count, hotel) combination. -/
theorem C7_no_solution_batch (G : GeoLib) (days_range : List Nat)
    (hotels pois : List Poi) (measurement : OuterDict) (store store0 : List Row)
    (solv : Nat → Nat → Option Assignment) (dur dist : Nat → Nat → ℚ)
    (d hi : Nat) (hd : d ∈ days_range) (hhi : hi < hotels.length)
    (hns : solv d hi = none) :
    (run_vrptur (set_hotel G (hotels.getD hi default) pois measurement store).1
        dur dist d (fun _ => solv d hi)).1.trips = [] ∧
    (run_vrptur (set_hotel G (hotels.getD hi default) pois measurement store).1
        dur dist d (fun _ => solv d hi)).1.duration = 0 ∧
    (run_vrptur (set_hotel G (hotels.getD hi default) pois measurement store).1
        dur dist d (fun _ => solv d hi)).2 =
      ["No solution found for num_days = " ++ toString d] ∧
    ((main_loop G days_range hotels pois measurement solv store0).1).length =
      days_range.length * hotels.length := by
  have h1 : (set_hotel G (hotels.getD hi default) pois measurement store).1 =
      (hotels.getD hi default) :: pois := rfl
  have hlen : 0 <
      ((set_hotel G (hotels.getD hi default) pois measurement store).1).length := by
    rw [h1]
    simp
  refine ⟨?_, ?_, ?_,
    main_loop_len G days_range hotels pois measurement solv store0⟩
  all_goals simp only [run_vrptur, hns]
  all_goals rw [if_pos hlen]

/-- Witness for C7: a one-hotel, one-day-count batch whose solver always
reports no solution. -/
theorem C7_no_solution_batch_witness :
    (run_vrptur (set_hotel Gex exHotel [exPoi] exMeas exStore).1
        (fun _ _ => 0) (fun _ _ => 0) 2 (fun _ => none)).1.trips = [] ∧
    (run_vrptur (set_hotel Gex exHotel [exPoi] exMeas exStore).1
        (fun _ _ => 0) (fun _ _ => 0) 2 (fun _ => none)).1.duration = 0 ∧
    (run_vrptur (set_hotel Gex exHotel [exPoi] exMeas exStore).1
        (fun _ _ => 0) (fun _ _ => 0) 2 (fun _ => none)).2 =
      ["No solution found for num_days = " ++ toString 2] ∧
    ((main_loop Gex [2] [exHotel] [exPoi] exMeas (fun _ _ => none)
        exStore).1).length = 1 :=
  C7_no_solution_batch Gex [2] [exHotel] [exPoi] exMeas exStore exStore
    (fun _ _ => none) (fun _ _ => 0) (fun _ _ => 0) 2 0 (by decide) (by decide)
    rfl

/-- Claim C2 counterexample: `set_hotel` does not leave the inner per-PoI
rows of the base measurement matrix unchanged — after the call the base
matrix's row for `exPoi` (address 0 of the store) holds a `HOTEL_ID` entry
that it did not hold before, because `dict(measurement)` shares the inner
rows between the base matrix and the copy. -/
theorem C2_counterexample :
    dget HOTEL_ID (rowAt (set_hotel Gex exHotel [exPoi] exMeas exStore).2.2 0)
      ≠ dget HOTEL_ID (rowAt exStore 0) := by
  simp [set_hotel, hotel_store_step, exMeas, exStore, dget, dcontains,
    dinsert, rowAt, setRow, oid, exPoi, exHotel, make_skinny_poi, HOTEL_ID,
    dict_of_list]

/-- Claim C2 (corrected): `set_hotel` leaves the base PoI list and the base
outer dictionary unchanged, preserves every inner-row entry under keys other
than `HOTEL_ID` and the store length of the original rows (one fresh row is
appended), but it adds or overwrites the `HOTEL_ID` entry in each listed
PoI's inner row of the base matrix, which is shared with the returned
copy. -/
theorem C2_shallow_copy_mutation (G : GeoLib) (hotel : Poi) (pois : List Poi)
    (measurement : OuterDict) (store : List Row)
    (hwf : ∀ q ∈ pois, (dget (oid q) measurement).isSome = true ∧
      (dget (oid q) measurement).getD 0 < store.length)
    (hnd : (pois.map (fun q => (dget (oid q) measurement).getD 0)).Nodup)
    (a : Nat) (ha : a < store.length) (k : String) (hk : k ≠ HOTEL_ID)
    (p : Poi) (hp : p ∈ pois) :
    (set_hotel G hotel pois measurement store).1 = hotel :: pois ∧
    ((set_hotel G hotel pois measurement store).2.2).length
      = store.length + 1 ∧
    dget k (rowAt (set_hotel G hotel pois measurement store).2.2 a)
      = dget k (rowAt store a) ∧
    dget HOTEL_ID (rowAt (set_hotel G hotel pois measurement store).2.2
        ((dget (oid p) measurement).getD 0)) = some (measure G p hotel) ∧
    dget k (set_hotel G hotel pois measurement store).2.1
      = dget k measurement := by
  have hS1 : (set_hotel G hotel pois measurement store).2.2 =
      pois.foldl (hotel_store_step G hotel measurement) store ++
        [dict_of_list (fun poi => measure G poi hotel) pois
          (dinsert HOTEL_ID (0, 0) [])] := rfl
  have hS1len :
      (pois.foldl (hotel_store_step G hotel measurement) store).length
        = store.length := length_store_fold G hotel measurement pois store
  refine ⟨rfl, ?_, ?_, ?_, ?_⟩
  · rw [hS1, List.length_append, hS1len]
    rfl
  · rw [hS1, rowAt_append _ _ a (by rw [hS1len]; exact ha)]
    exact frame_store_fold G hotel measurement k hk pois store a
  · rw [hS1, rowAt_append _ _ _ (by rw [hS1len]; exact (hwf p hp).2)]
    exact hotel_entry_store_fold G hotel measurement pois store p hp hwf hnd
  · exact dget_dinsert_ne HOTEL_ID k _ _ hk

/-- Witness for C2 (corrected form) at the one-PoI base matrix. -/
theorem C2_shallow_copy_mutation_witness :
    (set_hotel Gex exHotel [exPoi] exMeas exStore).1 = exHotel :: [exPoi] ∧
    ((set_hotel Gex exHotel [exPoi] exMeas exStore).2.2).length
      = exStore.length + 1 ∧
    dget "p" (rowAt (set_hotel Gex exHotel [exPoi] exMeas exStore).2.2 0)
      = dget "p" (rowAt exStore 0) ∧
    dget HOTEL_ID (rowAt (set_hotel Gex exHotel [exPoi] exMeas exStore).2.2
        ((dget (oid exPoi) exMeas).getD 0)) = some (measure Gex exPoi exHotel) ∧
    dget "p" (set_hotel Gex exHotel [exPoi] exMeas exStore).2.1
      = dget "p" exMeas :=
  C2_shallow_copy_mutation Gex exHotel [exPoi] exMeas exStore
    (by
      intro q hq
      simp only [List.mem_singleton] at hq
      subst hq
      exact ⟨rfl, by decide⟩)
    (by simp) 0 (by decide) "p" (by decide) exPoi (by simp)

/-- Claim C6: the depot-extended copy returned by `set_hotel` agrees with
the original matrix on every pre-existing pair, inserts the hotel at
position 0 of the PoI list, gives the hotel the self-entry `[0, 0]`, and
sets both `(hotel, p)` and `(p, hotel)` to `measure(p, hotel)` for every
listed PoI `p`. -/
theorem C6_depot_insertion (G : GeoLib) (hotel : Poi) (pois : List Poi)
    (measurement : OuterDict) (store : List Row)
    (hwf : ∀ q ∈ pois, (dget (oid q) measurement).isSome = true ∧
      (dget (oid q) measurement).getD 0 < store.length)
    (hndA : (pois.map (fun q => (dget (oid q) measurement).getD 0)).Nodup)
    (hndO : (pois.map oid).Nodup)
    (hnh : ∀ q2 ∈ pois, oid q2 ≠ HOTEL_ID)
    (p q : Poi) (hp : p ∈ pois) (hq : q ∈ pois) :
    (set_hotel G hotel pois measurement store).1 = hotel :: pois ∧
    matrix_get (set_hotel G hotel pois measurement store).2.2
        (set_hotel G hotel pois measurement store).2.1 (oid p) (oid q)
      = matrix_get store measurement (oid p) (oid q) ∧
    matrix_get (set_hotel G hotel pois measurement store).2.2
        (set_hotel G hotel pois measurement store).2.1 HOTEL_ID HOTEL_ID
      = some (0, 0) ∧
    matrix_get (set_hotel G hotel pois measurement store).2.2
        (set_hotel G hotel pois measurement store).2.1 HOTEL_ID (oid p)
      = some (measure G p hotel) ∧
    matrix_get (set_hotel G hotel pois measurement store).2.2
        (set_hotel G hotel pois measurement store).2.1 (oid p) HOTEL_ID
      = some (measure G p hotel) := by
  have hres : set_hotel G hotel pois measurement store =
      (hotel :: pois,
       dinsert HOTEL_ID
         (pois.foldl (hotel_store_step G hotel measurement) store).length
         measurement,
       pois.foldl (hotel_store_step G hotel measurement) store ++
         [dict_of_list (fun poi => measure G poi hotel) pois
           (dinsert HOTEL_ID (0, 0) [])]) := rfl
  have hS1len :
      (pois.foldl (hotel_store_step G hotel measurement) store).length
        = store.length := length_store_fold G hotel measurement pois store
  obtain ⟨hpsome, hplt⟩ := hwf p hp
  obtain ⟨ap, hap⟩ := Option.isSome_iff_exists.mp hpsome
  have hapD : (dget (oid p) measurement).getD 0 = ap := by rw [hap]; rfl
  have haplt : ap < store.length := hapD ▸ hplt
  have hcm : dget (oid p)
      (dinsert HOTEL_ID
        (pois.foldl (hotel_store_step G hotel measurement) store).length
        measurement) = some ap := by
    rw [dget_dinsert_ne HOTEL_ID (oid p) _ _ (hnh p hp), hap]
  refine ⟨rfl, ?_, ?_, ?_, ?_⟩
  · rw [hres]
    simp only [matrix_get, hcm, hap]
    rw [rowAt_append _ _ ap (by rw [hS1len]; exact haplt)]
    exact frame_store_fold G hotel measurement (oid q) (hnh q hq) pois store ap
  · rw [hres]
    simp only [matrix_get, dget_dinsert_self]
    rw [rowAt_append_last, dget_dict_of_list,
      lookupLast_eq_none HOTEL_ID pois hnh]
    exact dget_dinsert_self HOTEL_ID (0, 0) []
  · rw [hres]
    simp only [matrix_get, dget_dinsert_self]
    rw [rowAt_append_last, dget_dict_of_list, lookupLast_nodup p pois hndO hp]
  · rw [hres]
    simp only [matrix_get, hcm]
    rw [rowAt_append _ _ ap (by rw [hS1len]; exact haplt)]
    have hent := hotel_entry_store_fold G hotel measurement pois store p hp
      hwf hndA
    rw [hapD] at hent
    exact hent

/-- Witness for C6 at a two-PoI base matrix. -/
theorem C6_depot_insertion_witness :
    (set_hotel Gex exHotel [exPoi, exPoi2] exMeas2 exStore2).1
      = exHotel :: [exPoi, exPoi2] ∧
    matrix_get (set_hotel Gex exHotel [exPoi, exPoi2] exMeas2 exStore2).2.2
        (set_hotel Gex exHotel [exPoi, exPoi2] exMeas2 exStore2).2.1
        (oid exPoi) (oid exPoi2)
      = matrix_get exStore2 exMeas2 (oid exPoi) (oid exPoi2) ∧
    matrix_get (set_hotel Gex exHotel [exPoi, exPoi2] exMeas2 exStore2).2.2
        (set_hotel Gex exHotel [exPoi, exPoi2] exMeas2 exStore2).2.1
        HOTEL_ID HOTEL_ID = some (0, 0) ∧
    matrix_get (set_hotel Gex exHotel [exPoi, exPoi2] exMeas2 exStore2).2.2
        (set_hotel Gex exHotel [exPoi, exPoi2] exMeas2 exStore2).2.1
        HOTEL_ID (oid exPoi) = some (measure Gex exPoi exHotel) ∧
    matrix_get (set_hotel Gex exHotel [exPoi, exPoi2] exMeas2 exStore2).2.2
        (set_hotel Gex exHotel [exPoi, exPoi2] exMeas2 exStore2).2.1
        (oid exPoi) HOTEL_ID = some (measure Gex exPoi exHotel) :=
  C6_depot_insertion Gex exHotel [exPoi, exPoi2] exMeas2 exStore2
    (by
      intro q2 hq2
      simp only [List.mem_cons, List.not_mem_nil, or_false] at hq2
      rcases hq2 with h | h <;> subst h <;> exact ⟨rfl, by decide⟩)
    (by decide) (by decide) (by decide) exPoi exPoi2 (by simp) (by simp)

end VRPTur
